import Mathlib

/-!
# magitrak: the match controller

A shallow embedding of `controllers/match.go` (the four handlers of
`MatchController`: `Create`, `GetSingle`, `Delete`, `GetAll`) and the
properties of its request-authorization and validation pipeline.

The handlers are straight-line Go with early exits through `m.Abort(code)`.
Here a handler is a total function from the store state and the request to a
`Result`: the way the request ended (`Outcome`), the store state afterwards
and the list of store operations it invoked, in order.

The `models` package (the record type, its validator and the store functions
backed by ElasticSearch) is not among the sources. The record type is taken
from the composite literals of `tests/match_func_test.go`, the validator is
modelled from the specification, and the store functions are parameters of
the handlers (`Env`).
-/

namespace Magitrak

/-! ## Data model -/

/-- Go `time.Time`, reduced to the instant it denotes: seconds and
nanoseconds counted from the zero time `time.Time{}`. -/
structure Time where
  sec : Int
  nsec : Nat
  deriving DecidableEq, Repr

/-- Go `Time.IsZero`: the zero time instant. -/
def Time.IsZero (t : Time) : Bool :=
  t.sec == 0 && t.nsec == 0

/-- The record `models.Match`, with the twelve fields the tests construct and
compare (`tests/match_func_test.go`, `TestMatchInsertRetrievalASuccess`). -/
structure Match where
  UserId : Int
  Date : Time
  PlayerDeck : String
  OpponentDeck : String
  Win : Bool
  Reason : String
  Sideboard : Bool
  PlayFirst : Bool
  StartingHandSize : Int
  LandsInOpener : Int
  OpponentName : String
  Notes : String
  deriving DecidableEq, Repr

/-- The session record `models.MagiSession`; the controller reads only its
`UserId`. -/
structure MagiSession where
  UserId : Int
  deriving DecidableEq, Repr

/-- What `m.GetSession(models.SESSION_NAME)` can hold when it is not `nil`:
Go's `interface{}` value is either a `models.MagiSession` or a value of some
other dynamic type, on which the assertion `.(models.MagiSession)` fails. -/
inductive SessionValue
  | magiSession (s : MagiSession)
  | other
  deriving DecidableEq, Repr

/-- The parts of the request a handler reads: `m.Ctx.Input.RequestBody`,
`m.Ctx.Input.Param(":matchId")` and the result of
`m.GetSession(models.SESSION_NAME)` (`none` is Go's `nil`). -/
structure Request where
  RequestBody : String
  matchId : String
  session : Option SessionValue
  deriving DecidableEq, Repr

/-- The value a handler stores in `m.Data["json"]` before `m.ServeJSON()`. -/
inductive Payload
  | stringMap (kv : List (String × String))
  | record (r : Match)
  | text (s : String)
  | records (rs : List Match)
  deriving DecidableEq, Repr

/-- How a handler run ends: `m.Abort(code)` (which does not return),
a Go run-time panic from a failed type assertion, or `m.ServeJSON()` with the
value of `m.Data["json"]`. -/
inductive Outcome
  | aborted (code : String)
  | panicked
  | served (json : Payload)
  deriving DecidableEq, Repr

/-- A store operation invoked by a handler. -/
inductive StoreCall
  | InsertMatch (r : Match)
  | GetOne (matchId : String)
  | Delete (matchId : String)
  | GetAll (userId : Int)
  deriving DecidableEq, Repr

/-- The store operations that write: `models.InsertMatch` and
`models.Delete`. -/
def StoreCall.isMutation : StoreCall → Bool
  | .InsertMatch _ => true
  | .Delete _ => true
  | .GetOne _ => false
  | .GetAll _ => false

/-- The mutating store operations among the operations a handler invoked. -/
def mutations (calls : List StoreCall) : List StoreCall :=
  calls.filter StoreCall.isMutation

/-- The result of running a handler: its outcome, the store state afterwards
and the store operations it invoked, in order. -/
structure Result (σ : Type) where
  outcome : Outcome
  store : σ
  calls : List StoreCall

/-! ## Response status -/

/-- Decimal digits to a number, most significant first. -/
def atoiDigits : List Char → Nat → Option Nat
  | [], acc => some acc
  | c :: cs, acc =>
    if c.isDigit then atoiDigits cs (acc * 10 + (c.toNat - 48)) else none

/-- Go `strconv.Atoi` on the unsigned decimal strings the controller uses. -/
def atoi (s : String) : Option Nat :=
  match s.data with
  | [] => none
  | cs => atoiDigits cs 0

/-- The status `m.Abort(code)` responds with: beego converts the code with
`strconv.Atoi` and falls back to 200 when it is not a number. -/
def abortStatus (code : String) : Nat :=
  (atoi code).getD 200

/-- The HTTP status the handler itself responds with: the abort code, and
200 for `ServeJSON`. A handler that panicked wrote no response of its own
(`none`): what the client then receives is written by the framework when it
recovers the panic, outside the controller. -/
def Outcome.status : Outcome → Option Nat
  | .aborted code => some (abortStatus code)
  | .panicked => none
  | .served _ => some 200

/-- The JSON value placed in the response, when there is one. -/
def Outcome.body : Outcome → Option Payload
  | .served json => some json
  | _ => none

/-! ## The validator -/

/-- Modelled from the spec: the method `models.Match.Validate` (the `models`
package is not among the sources). Section 4.1: the date must not be the zero
timestamp, `playerDeck` must be non-empty and `opponentDeck` must be
non-empty; a violation yields an error naming the failing fields. The list of
failing field names, in the order of the checks. -/
def Match.invalidFields (r : Match) : List String :=
  (if r.Date.IsZero then ["date"] else []) ++
  (if r.PlayerDeck = "" then ["playerDeck"] else []) ++
  (if r.OpponentDeck = "" then ["opponentDeck"] else [])

/-- Modelled from the spec: the method `models.Match.Validate` (the `models`
package is not among the sources), section 4.1. `none` is Go's `nil` error;
`some fields` is the validation error naming the failing fields. -/
def Match.Validate (r : Match) : Option (List String) :=
  match r.invalidFields with
  | [] => none
  | fields => some fields

/-! ## The collaborators of the controller -/

/-- The functions the controller calls and whose code is outside the
controller: `json.Unmarshal` into a `models.Match`, and the store functions
of the `models` package over a store state `σ`. Errors are Go `error` values,
represented by their message. `InsertMatch` and `Delete` return the new store
state; `GetOne` and `GetAll` only read. -/
structure Env (σ : Type) where
  NO_MATCH_FOUND_ERROR : String
  Unmarshal : String → Except String Match
  InsertMatch : σ → Match → Except String String × σ
  GetOne : σ → String → Except String Match
  Delete : σ → String → Bool × σ
  GetAll : σ → Int → Except String (List Match)

/-! ## The handlers -/

variable {σ : Type}

/-- `MatchController.Create` (`@router / [post]`). -/
def Create (env : Env σ) (st : σ) (req : Request) : Result σ :=
  match env.Unmarshal req.RequestBody with
  | .error _ => ⟨.aborted "400", st, []⟩
  | .ok r =>
    match r.Validate with
    | some _ => ⟨.aborted "400", st, []⟩
    | none =>
      match req.session with
      | none => ⟨.aborted "500", st, []⟩
      | some .other => ⟨.panicked, st, []⟩
      | some (.magiSession magiSession) =>
        if r.UserId ≠ magiSession.UserId then ⟨.aborted "400", st, []⟩
        else
          match env.InsertMatch st r with
          | (.error _, st') => ⟨.aborted "500", st', [.InsertMatch r]⟩
          | (.ok matchId, st') =>
            ⟨.served (.stringMap [("MatchId", matchId)]), st', [.InsertMatch r]⟩

/-- `MatchController.GetSingle` (`@router /:matchId [get]`). The session is
type-asserted without a `nil` check, after the fetch succeeded. -/
def GetSingle (env : Env σ) (st : σ) (req : Request) : Result σ :=
  match env.GetOne st req.matchId with
  | .error err =>
    if err = env.NO_MATCH_FOUND_ERROR then ⟨.aborted "404", st, [.GetOne req.matchId]⟩
    else ⟨.aborted "500", st, [.GetOne req.matchId]⟩
  | .ok r =>
    match req.session with
    | some (.magiSession session) =>
      if r.UserId ≠ session.UserId then ⟨.aborted "400", st, [.GetOne req.matchId]⟩
      else ⟨.served (.record r), st, [.GetOne req.matchId]⟩
    | _ => ⟨.panicked, st, [.GetOne req.matchId]⟩

/-- `MatchController.Delete` (`@router /:matchId [delete]`). -/
def Delete (env : Env σ) (st : σ) (req : Request) : Result σ :=
  match env.GetOne st req.matchId with
  | .error findErr =>
    if findErr = env.NO_MATCH_FOUND_ERROR then ⟨.aborted "404", st, [.GetOne req.matchId]⟩
    else ⟨.aborted "500", st, [.GetOne req.matchId]⟩
  | .ok r =>
    match req.session with
    | some (.magiSession session) =>
      if session.UserId ≠ r.UserId then ⟨.aborted "400", st, [.GetOne req.matchId]⟩
      else
        match env.Delete st req.matchId with
        | (true, st') =>
          ⟨.served (.text "delete success!"), st', [.GetOne req.matchId, .Delete req.matchId]⟩
        | (false, st') =>
          ⟨.aborted "500", st', [.GetOne req.matchId, .Delete req.matchId]⟩
    | _ => ⟨.panicked, st, [.GetOne req.matchId]⟩

/-- `MatchController.GetAll` (`@router / [get]`). -/
def GetAll (env : Env σ) (st : σ) (req : Request) : Result σ :=
  match req.session with
  | some (.magiSession session) =>
    match env.GetAll st session.UserId with
    | .error _ => ⟨.aborted "500", st, [.GetAll session.UserId]⟩
    | .ok found => ⟨.served (.records found), st, [.GetAll session.UserId]⟩
  | _ => ⟨.panicked, st, []⟩

/-! ## An in-memory store

An instance of `Env` on which the handlers can be evaluated on concrete
requests: documents are kept in a list, identifiers are drawn from a counter,
and every operation fails while the store is down. -/

/-- The state of the in-memory store. -/
structure MemStore where
  docs : List (String × Match)
  next : Nat
  up : Bool
  deriving DecidableEq, Repr

/-- The identifier drawn from counter value `n`. -/
def memId (n : Nat) : String :=
  String.mk (List.replicate (n + 1) 'm')

/-- The first document stored under an identifier. -/
def memLookup (docs : List (String × Match)) (matchId : String) : Option Match :=
  (docs.find? (fun d => d.1 == matchId)).map (fun d => d.2)

/-- A record that passes validation, owned by user 1
(`getValidMatch` of the tests, at a fixed date). -/
def burnMatch : Match :=
  { UserId := 1, Date := ⟨63600000000, 0⟩, PlayerDeck := "burn", OpponentDeck := "bloom",
    Win := false, Reason := "", Sideboard := false, PlayFirst := false,
    StartingHandSize := 0, LandsInOpener := 0, OpponentName := "", Notes := "" }

/-- A record owned by user 1 with every field set
(the first record of `TestMatchInsertRetrievalASuccess`, at a fixed date). -/
def jundMatch : Match :=
  { UserId := 1, Date := ⟨63600000000, 500⟩, PlayerDeck := "jund", OpponentDeck := "Titan",
    Win := true, Reason := "hand disruption + goyf", Sideboard := false, PlayFirst := true,
    StartingHandSize := 7, LandsInOpener := 2, OpponentName := "killah31", Notes := "na" }

/-- A valid record carrying `UserId` 4. -/
def userFourMatch : Match := { burnMatch with UserId := 4 }

/-- A record whose date is the zero time. -/
def undatedMatch : Match := { burnMatch with Date := ⟨0, 0⟩ }

/-- A record owned by user 2. -/
def otherUserMatch : Match := { jundMatch with UserId := 2 }

/-- The request bodies the in-memory instance can decode. -/
def memBodies : List (String × Match) :=
  [("burn", burnMatch),
   ("jund", jundMatch),
   ("userid4", userFourMatch),
   ("nodate", undatedMatch),
   ("noplayerdeck", { burnMatch with PlayerDeck := "" }),
   ("noopponentdeck", { burnMatch with OpponentDeck := "" })]

/-- Modelled from the spec: the Record Store of section 6 (the functions
`models.InsertMatch`, `models.GetOne`, `models.Delete` and `models.GetAll`,
not among the sources), as an in-memory document store keyed by a generated
identifier: create assigns the identifier, fetch-by-id tells not-found from
other failures, delete-by-id returns a boolean and list-by-owner returns the
records of the owner. `Unmarshal` decodes the bodies of `memBodies` and
rejects every other body. -/
def memEnv : Env MemStore where
  NO_MATCH_FOUND_ERROR := "No match found"
  Unmarshal := fun body =>
    match memLookup memBodies body with
    | some r => .ok r
    | none => .error "invalid character"
  InsertMatch := fun st r =>
    if st.up then
      (.ok (memId st.next), { st with docs := (memId st.next, r) :: st.docs, next := st.next + 1 })
    else (.error "no available connection", st)
  GetOne := fun st matchId =>
    if st.up then
      match memLookup st.docs matchId with
      | some r => .ok r
      | none => .error "No match found"
    else .error "no available connection"
  Delete := fun st matchId =>
    if st.up then (true, { st with docs := st.docs.filter (fun d => !(d.1 == matchId)) })
    else (false, st)
  GetAll := fun st userId =>
    if st.up then .ok ((st.docs.map (fun d => d.2)).filter (fun r => r.UserId == userId))
    else .error "no available connection"

/-- The empty store, up. -/
def memEmpty : MemStore := ⟨[], 0, true⟩

/-- A store that is down. -/
def memDown : MemStore := ⟨[], 0, false⟩

/-- A store holding one record of user 1 and one of user 2. -/
def memTwo : MemStore :=
  ⟨[("mm", otherUserMatch), ("m", burnMatch)], 2, true⟩

/-- A logged-in request of user `userId`. -/
def loggedIn (body matchId : String) (userId : Int) : Request :=
  ⟨body, matchId, some (.magiSession ⟨userId⟩)⟩

/-! ## Store contracts named by the specification -/

/-- The store assumption of the round-trip property, on `models.InsertMatch`
and `models.GetOne`: fetch-by-id of a freshly inserted identifier returns the
inserted record. -/
def FetchAfterInsert (env : Env σ) : Prop :=
  ∀ st r matchId st', env.InsertMatch st r = (.ok matchId, st') →
    env.GetOne st' matchId = .ok r

/-- The store assumption of the delete-then-fetch property, on
`models.Delete` and `models.GetOne`: delete-by-id removes the record, that
is, delete-by-id of a record that can be fetched succeeds, and after a
successful delete fetch-by-id reports not-found. -/
def DeleteRemoves (env : Env σ) : Prop :=
  (∀ st matchId r, env.GetOne st matchId = .ok r → (env.Delete st matchId).1 = true) ∧
  (∀ st matchId st', env.Delete st matchId = (true, st') →
    env.GetOne st' matchId = .error env.NO_MATCH_FOUND_ERROR)

/-- Modelled from the spec: the store function `models.GetAll` (not among
the sources), list-by-owner: every record it returns is owned by the queried
owner. -/
def ListsByOwner (env : Env σ) : Prop :=
  ∀ st userId found, env.GetAll st userId = .ok found →
    ∀ r ∈ found, r.UserId = userId

/-! ## Basic facts -/

@[simp] theorem status_aborted_400 : (Outcome.aborted "400").status = some 400 := by decide

@[simp] theorem status_aborted_404 : (Outcome.aborted "404").status = some 404 := by decide

@[simp] theorem status_aborted_500 : (Outcome.aborted "500").status = some 500 := by decide

@[simp] theorem status_served (json : Payload) : (Outcome.served json).status = some 200 := rfl

@[simp] theorem status_panicked : Outcome.panicked.status = none := rfl

theorem validate_eq_none_iff (r : Match) :
    r.Validate = none ↔ r.Date.IsZero = false ∧ r.PlayerDeck ≠ "" ∧ r.OpponentDeck ≠ "" := by
  unfold Match.Validate Match.invalidFields
  by_cases h1 : r.Date.IsZero = true <;> by_cases h2 : r.PlayerDeck = "" <;>
    by_cases h3 : r.OpponentDeck = "" <;> simp [h1, h2, h3]

/-! ## Create -/

/-- C1: `Create` responds 200 exactly when the body parses into a record,
`Validate` accepts it, a session is present, the record's `UserId` equals the
session's `UserId` and the store insert succeeds; and then the response body
is the map with the single entry `MatchId`, the identifier the insert
returned. -/
theorem create_200_iff (env : Env σ) (st : σ) (req : Request) :
    ((Create env st req).outcome.status = some 200 ↔
      ∃ r session matchId st', env.Unmarshal req.RequestBody = .ok r ∧ r.Validate = none ∧
        req.session = some (.magiSession session) ∧ r.UserId = session.UserId ∧
        env.InsertMatch st r = (.ok matchId, st')) ∧
    (∀ r session matchId st', env.Unmarshal req.RequestBody = .ok r ∧ r.Validate = none ∧
        req.session = some (.magiSession session) ∧ r.UserId = session.UserId ∧
        env.InsertMatch st r = (.ok matchId, st') →
      (Create env st req).outcome = .served (.stringMap [("MatchId", matchId)]) ∧
      (Create env st req).outcome.body = some (.stringMap [("MatchId", matchId)])) := by
  unfold Create
  refine ⟨?_, ?_⟩
  · split
    · simp_all
    · split
      · simp_all
      · split
        · simp_all
        · simp_all
        · split
          · simp_all
          · split <;> simp_all
  · rintro r session matchId st' ⟨h1, h2, h3, h4, h5⟩
    simp [h1, h2, h3, h4, h5, Outcome.body]

/-- C2: when the body parses and validates, a session is present and the
submitted `UserId` differs from the session's `UserId`, `Create` aborts with
400 without invoking the store: no store operation is recorded, in particular
no insert, and the store state is the one it started from. -/
theorem create_owner_mismatch_400 (env : Env σ) (st : σ) (req : Request) (r : Match)
    (session : MagiSession)
    (hparse : env.Unmarshal req.RequestBody = .ok r)
    (hvalid : r.Validate = none)
    (hsession : req.session = some (.magiSession session))
    (hne : r.UserId ≠ session.UserId) :
    (Create env st req).outcome.status = some 400 ∧
    (Create env st req).outcome = .aborted "400" ∧
    (∀ x, StoreCall.InsertMatch x ∉ (Create env st req).calls) ∧
    (Create env st req).calls = [] ∧
    (Create env st req).store = st := by
  unfold Create
  simp [hparse, hvalid, hsession, hne]

/-- Witness for C2: user 1 submits a valid record carrying `UserId` 4. -/
theorem create_owner_mismatch_400_witness :
    (memEnv.Unmarshal (loggedIn "userid4" "" 1).RequestBody = .ok userFourMatch ∧
      userFourMatch.Validate = none ∧
      (loggedIn "userid4" "" 1).session = some (.magiSession ⟨1⟩) ∧
      userFourMatch.UserId ≠ (⟨1⟩ : MagiSession).UserId) ∧
    ((Create memEnv memEmpty (loggedIn "userid4" "" 1)).outcome.status = some 400 ∧
      (Create memEnv memEmpty (loggedIn "userid4" "" 1)).outcome = .aborted "400" ∧
      (∀ x, StoreCall.InsertMatch x ∉ (Create memEnv memEmpty (loggedIn "userid4" "" 1)).calls) ∧
      (Create memEnv memEmpty (loggedIn "userid4" "" 1)).calls = [] ∧
      (Create memEnv memEmpty (loggedIn "userid4" "" 1)).store = memEmpty) :=
  ⟨⟨rfl, by decide, rfl, by decide⟩,
    create_owner_mismatch_400 memEnv memEmpty (loggedIn "userid4" "" 1) userFourMatch ⟨1⟩
      rfl (by decide) rfl (by decide)⟩

/-- C3: when the body does not parse, or the parsed record is rejected by the
validator (in particular when its date is the zero time, its `PlayerDeck` is
empty or its `OpponentDeck` is empty), `Create` aborts with 400 whatever the
session and the store state are, without invoking the store. -/
theorem create_malformed_or_invalid_400 (env : Env σ) (st : σ) (req : Request)
    (hbad : (∃ e, env.Unmarshal req.RequestBody = .error e) ∨
      (∃ r, env.Unmarshal req.RequestBody = .ok r ∧
        (r.Validate ≠ none ∨ r.Date.IsZero = true ∨ r.PlayerDeck = "" ∨ r.OpponentDeck = ""))) :
    (Create env st req).outcome.status = some 400 ∧
    (Create env st req).outcome = .aborted "400" ∧
    (∀ x, StoreCall.InsertMatch x ∉ (Create env st req).calls) ∧
    (Create env st req).calls = [] ∧
    (Create env st req).store = st := by
  unfold Create
  rcases hbad with ⟨e, he⟩ | ⟨r, hr, hrej⟩
  · simp [he]
  · have hv : r.Validate ≠ none := by
      rcases hrej with h | h | h | h
      · exact h
      · intro hn
        have := (validate_eq_none_iff r).1 hn
        simp_all
      · intro hn
        exact ((validate_eq_none_iff r).1 hn).2.1 h
      · intro hn
        exact ((validate_eq_none_iff r).1 hn).2.2 h
    obtain ⟨fields, hf⟩ := Option.ne_none_iff_exists'.1 hv
    simp [hr, hf]

/-- Witness for C3: a record without a date, submitted with no session while
the store is down. -/
theorem create_malformed_or_invalid_400_witness :
    (memEnv.Unmarshal (⟨"nodate", "", none⟩ : Request).RequestBody = .ok undatedMatch ∧
      undatedMatch.Date.IsZero = true) ∧
    ((Create memEnv memDown ⟨"nodate", "", none⟩).outcome.status = some 400 ∧
      (Create memEnv memDown ⟨"nodate", "", none⟩).outcome = .aborted "400" ∧
      (∀ x, StoreCall.InsertMatch x ∉ (Create memEnv memDown ⟨"nodate", "", none⟩).calls) ∧
      (Create memEnv memDown ⟨"nodate", "", none⟩).calls = [] ∧
      (Create memEnv memDown ⟨"nodate", "", none⟩).store = memDown) :=
  ⟨⟨rfl, by decide⟩,
    create_malformed_or_invalid_400 memEnv memDown ⟨"nodate", "", none⟩
      (Or.inr ⟨undatedMatch, rfl, Or.inr (Or.inl (by decide))⟩)⟩

/-! ## GetSingle and Delete -/

/-- C4: when the identifier is found in the store and the fetched record's
`UserId` differs from the session's `UserId`, `GetSingle` and `Delete` both
abort with 400 (not 404, not 200), nothing is placed in the response, and
`Delete` does not invoke the store's delete-by-id. -/
theorem foreign_record_400 (env : Env σ) (st : σ) (req : Request) (r : Match)
    (session : MagiSession)
    (hfound : env.GetOne st req.matchId = .ok r)
    (hsession : req.session = some (.magiSession session))
    (hne : r.UserId ≠ session.UserId) :
    ((GetSingle env st req).outcome.status = some 400 ∧
      (GetSingle env st req).outcome.status ≠ some 404 ∧
      (GetSingle env st req).outcome.status ≠ some 200 ∧
      (GetSingle env st req).outcome.body = none) ∧
    ((Delete env st req).outcome.status = some 400 ∧
      (Delete env st req).outcome.status ≠ some 404 ∧
      (Delete env st req).outcome.status ≠ some 200 ∧
      (Delete env st req).outcome.body = none ∧
      StoreCall.Delete req.matchId ∉ (Delete env st req).calls ∧
      (Delete env st req).store = st) := by
  have hne' : session.UserId ≠ r.UserId := fun h => hne h.symm
  unfold GetSingle Delete
  simp [hfound, hsession, hne, hne', Outcome.body]

/-- Witness for C4: user 1 asks for the record of user 2. -/
theorem foreign_record_400_witness :
    (memEnv.GetOne memTwo (loggedIn "" "mm" 1).matchId = .ok otherUserMatch ∧
      (loggedIn "" "mm" 1).session = some (.magiSession ⟨1⟩) ∧
      otherUserMatch.UserId ≠ (⟨1⟩ : MagiSession).UserId) ∧
    ((GetSingle memEnv memTwo (loggedIn "" "mm" 1)).outcome.status = some 400 ∧
      (GetSingle memEnv memTwo (loggedIn "" "mm" 1)).outcome.status ≠ some 404 ∧
      (GetSingle memEnv memTwo (loggedIn "" "mm" 1)).outcome.status ≠ some 200 ∧
      (GetSingle memEnv memTwo (loggedIn "" "mm" 1)).outcome.body = none) ∧
    ((Delete memEnv memTwo (loggedIn "" "mm" 1)).outcome.status = some 400 ∧
      (Delete memEnv memTwo (loggedIn "" "mm" 1)).outcome.status ≠ some 404 ∧
      (Delete memEnv memTwo (loggedIn "" "mm" 1)).outcome.status ≠ some 200 ∧
      (Delete memEnv memTwo (loggedIn "" "mm" 1)).outcome.body = none ∧
      StoreCall.Delete (loggedIn "" "mm" 1).matchId ∉
        (Delete memEnv memTwo (loggedIn "" "mm" 1)).calls ∧
      (Delete memEnv memTwo (loggedIn "" "mm" 1)).store = memTwo) :=
  ⟨⟨rfl, rfl, by decide⟩,
    foreign_record_400 memEnv memTwo (loggedIn "" "mm" 1) otherUserMatch ⟨1⟩
      rfl rfl (by decide)⟩

/-- C5: when the store's fetch-by-id reports not-found for the identifier,
`GetSingle` and `Delete` both abort with 404, for every session (also an
absent one), and `Delete` invokes only the fetch, never the store's
delete-by-id. -/
theorem missing_record_404 (env : Env σ) (st : σ) (req : Request)
    (hmissing : env.GetOne st req.matchId = .error env.NO_MATCH_FOUND_ERROR) :
    (GetSingle env st req).outcome.status = some 404 ∧
    (Delete env st req).outcome.status = some 404 ∧
    (Delete env st req).calls = [.GetOne req.matchId] ∧
    (∀ x, StoreCall.Delete x ∉ (Delete env st req).calls) ∧
    (Delete env st req).store = st := by
  unfold GetSingle Delete
  simp [hmissing]

/-- Witness for C5: the identifier of the tests, unknown to the store, asked
for without a session. -/
theorem missing_record_404_witness :
    memEnv.GetOne memTwo (⟨"", "1234567", none⟩ : Request).matchId =
      .error memEnv.NO_MATCH_FOUND_ERROR ∧
    (GetSingle memEnv memTwo ⟨"", "1234567", none⟩).outcome.status = some 404 ∧
    (Delete memEnv memTwo ⟨"", "1234567", none⟩).outcome.status = some 404 ∧
    (Delete memEnv memTwo ⟨"", "1234567", none⟩).calls = [.GetOne "1234567"] ∧
    (∀ x, StoreCall.Delete x ∉ (Delete memEnv memTwo ⟨"", "1234567", none⟩).calls) ∧
    (Delete memEnv memTwo ⟨"", "1234567", none⟩).store = memTwo :=
  ⟨rfl, missing_record_404 memEnv memTwo ⟨"", "1234567", none⟩ rfl⟩

/-! ## The in-memory store meets the store contracts -/

theorem memLookup_filter_ne (docs : List (String × Match)) (matchId : String) :
    memLookup (docs.filter (fun d => !(d.1 == matchId))) matchId = none := by
  induction docs with
  | nil => rfl
  | cons d ds ih =>
    by_cases h : d.1 = matchId
    · simp [List.filter, h, ih]
    · have hb : (d.1 == matchId) = false := by simpa using h
      simp only [List.filter, hb, Bool.not_false]
      simp [memLookup, List.find?, hb]

theorem memEnv_fetchAfterInsert : FetchAfterInsert memEnv := by
  intro st r matchId st' h
  by_cases hup : st.up = true
  · simp [memEnv, hup] at h
    obtain ⟨h1, h2⟩ := h
    subst h2
    simp [memEnv, hup, memLookup, h1]
  · simp [memEnv, hup] at h

theorem memEnv_deleteRemoves : DeleteRemoves memEnv := by
  constructor
  · intro st matchId r h
    by_cases hup : st.up = true
    · simp [memEnv, hup]
    · simp [memEnv, hup] at h
  · intro st matchId st' h
    by_cases hup : st.up = true
    · simp [memEnv, hup] at h
      subst h
      simp [memEnv, hup, memLookup_filter_ne]
    · simp [memEnv, hup] at h

theorem memEnv_listsByOwner : ListsByOwner memEnv := by
  intro st userId found h r hr
  by_cases hup : st.up = true
  · simp [memEnv, hup] at h
    subst h
    simp at hr
    exact hr.2
  · simp [memEnv, hup] at h

/-! ## Sequences of requests -/

theorem create_served_inv (env : Env σ) (st : σ) (req : Request) (i : String)
    (hcreate : (Create env st req).outcome = .served (.stringMap [("MatchId", i)])) :
    ∃ r session st', env.Unmarshal req.RequestBody = .ok r ∧ r.Validate = none ∧
      req.session = some (.magiSession session) ∧ r.UserId = session.UserId ∧
      env.InsertMatch st r = (.ok i, st') ∧ (Create env st req).store = st' ∧
      (Create env st req).calls = [.InsertMatch r] := by
  have hc := hcreate
  unfold Create at hc
  split at hc
  · simp at hc
  · rename_i r hparse
    split at hc
    · simp at hc
    · rename_i hvalid
      split at hc
      · simp at hc
      · simp at hc
      · rename_i session hsession
        split at hc
        · simp at hc
        · rename_i howner
          have howner' : r.UserId = session.UserId := by simpa using howner
          split at hc
          · simp at hc
          · rename_i matchId st' hins
            simp at hc
            subst hc
            refine ⟨r, session, st', hparse, hvalid, hsession, howner', hins, ?_, ?_⟩ <;>
              simp [Create, hparse, hvalid, hsession, hins, howner']

/-- C6: round trip. Over a store in which fetch-by-id of a freshly inserted
identifier returns the inserted record, for a valid record `r` submitted
under a session of its owner: when `Create` responds 200 with `MatchId` `i`,
it handed `r` itself to the store insert, and `GetSingle` of `i` under the
same session, on the store `Create` left, responds 200 with `r`: the served
record agrees with `r` on each of the twelve fields. -/
theorem create_then_get_roundtrip (env : Env σ) (hstore : FetchAfterInsert env) (st : σ)
    (body body2 path i : String) (r : Match) (session : MagiSession)
    (hparse : env.Unmarshal body = .ok r)
    (hvalid : r.Validate = none)
    (howner : session.UserId = r.UserId)
    (hcreate : (Create env st ⟨body, path, some (.magiSession session)⟩).outcome =
      .served (.stringMap [("MatchId", i)])) :
    (Create env st ⟨body, path, some (.magiSession session)⟩).calls = [.InsertMatch r] ∧
    (GetSingle env (Create env st ⟨body, path, some (.magiSession session)⟩).store
      ⟨body2, i, some (.magiSession session)⟩).outcome.status = some 200 ∧
    (GetSingle env (Create env st ⟨body, path, some (.magiSession session)⟩).store
      ⟨body2, i, some (.magiSession session)⟩).outcome = .served (.record r) ∧
    (∃ got, (GetSingle env (Create env st ⟨body, path, some (.magiSession session)⟩).store
        ⟨body2, i, some (.magiSession session)⟩).outcome.body = some (.record got) ∧
      got.UserId = r.UserId ∧ got.Date = r.Date ∧ got.PlayerDeck = r.PlayerDeck ∧
      got.OpponentDeck = r.OpponentDeck ∧ got.Win = r.Win ∧ got.Reason = r.Reason ∧
      got.Sideboard = r.Sideboard ∧ got.PlayFirst = r.PlayFirst ∧
      got.StartingHandSize = r.StartingHandSize ∧ got.LandsInOpener = r.LandsInOpener ∧
      got.OpponentName = r.OpponentName ∧ got.Notes = r.Notes) := by
  obtain ⟨r', session', st', hparse', _, hsession', _, hins, hstore', hcalls⟩ :=
    create_served_inv env st _ i hcreate
  have hr : r' = r := by
    have h := hparse'.symm.trans hparse
    simpa using h
  subst hr
  have hget := hstore st r' i st' hins
  rw [hstore', hcalls]
  simp [GetSingle, hget, howner, Outcome.body]

/-- Witness for C6: the first record of the insert-retrieval test, created on
the empty in-memory store and fetched by the identifier it was given. -/
theorem create_then_get_roundtrip_witness :
    (FetchAfterInsert memEnv ∧
      memEnv.Unmarshal "jund" = .ok jundMatch ∧
      jundMatch.Validate = none ∧
      (⟨1⟩ : MagiSession).UserId = jundMatch.UserId ∧
      (Create memEnv memEmpty ⟨"jund", "", some (.magiSession ⟨1⟩)⟩).outcome =
        .served (.stringMap [("MatchId", "m")])) ∧
    ((Create memEnv memEmpty ⟨"jund", "", some (.magiSession ⟨1⟩)⟩).calls =
        [.InsertMatch jundMatch] ∧
      (GetSingle memEnv (Create memEnv memEmpty ⟨"jund", "", some (.magiSession ⟨1⟩)⟩).store
        ⟨"", "m", some (.magiSession ⟨1⟩)⟩).outcome.status = some 200 ∧
      (GetSingle memEnv (Create memEnv memEmpty ⟨"jund", "", some (.magiSession ⟨1⟩)⟩).store
        ⟨"", "m", some (.magiSession ⟨1⟩)⟩).outcome = .served (.record jundMatch)) :=
  ⟨⟨memEnv_fetchAfterInsert, rfl, by decide, rfl, rfl⟩,
    ⟨(create_then_get_roundtrip memEnv memEnv_fetchAfterInsert memEmpty "jund" "" "" "m"
        jundMatch ⟨1⟩ rfl (by decide) rfl rfl).1,
      (create_then_get_roundtrip memEnv memEnv_fetchAfterInsert memEmpty "jund" "" "" "m"
        jundMatch ⟨1⟩ rfl (by decide) rfl rfl).2.1,
      (create_then_get_roundtrip memEnv memEnv_fetchAfterInsert memEmpty "jund" "" "" "m"
        jundMatch ⟨1⟩ rfl (by decide) rfl rfl).2.2.1⟩⟩

/-- C7: over a store in which a created record can be fetched and
delete-by-id removes the record, for a record created under a session
(`Create` responded 200 with `MatchId` `i`) and then deleted under the same
session: `Delete` responds 200 with the literal body `delete success!`, and
a subsequent `GetSingle` of `i`, under any session, responds 404. -/
theorem create_delete_then_get_404 (env : Env σ) (hfetch : FetchAfterInsert env)
    (hdelete : DeleteRemoves env) (st : σ) (body body2 path i : String)
    (session : MagiSession) (req3 : Request)
    (hcreate : (Create env st ⟨body, path, some (.magiSession session)⟩).outcome =
      .served (.stringMap [("MatchId", i)]))
    (hid : req3.matchId = i) :
    (Delete env (Create env st ⟨body, path, some (.magiSession session)⟩).store
      ⟨body2, i, some (.magiSession session)⟩).outcome.status = some 200 ∧
    (Delete env (Create env st ⟨body, path, some (.magiSession session)⟩).store
      ⟨body2, i, some (.magiSession session)⟩).outcome.body = some (.text "delete success!") ∧
    (GetSingle env
      (Delete env (Create env st ⟨body, path, some (.magiSession session)⟩).store
        ⟨body2, i, some (.magiSession session)⟩).store req3).outcome.status = some 404 := by
  obtain ⟨r, session', st', _, _, hsession', howner, hins, hstore', _⟩ :=
    create_served_inv env st _ i hcreate
  have hs : session' = session := by simpa using hsession'.symm
  subst hs
  have hget := hfetch st r i st' hins
  have hok := hdelete.1 st' i r hget
  rcases hdel : env.Delete st' i with ⟨b, st''⟩
  rw [hdel] at hok
  simp only at hok
  subst hok
  have hgone := hdelete.2 st' i st'' hdel
  rw [hstore']
  simp [Delete, GetSingle, hget, howner, hdel, hgone, hid, Outcome.body]

/-- Witness for C7: the record of the insert-delete-retrieve test on the
empty in-memory store. -/
theorem create_delete_then_get_404_witness :
    (FetchAfterInsert memEnv ∧ DeleteRemoves memEnv ∧
      (Create memEnv memEmpty ⟨"burn", "", some (.magiSession ⟨1⟩)⟩).outcome =
        .served (.stringMap [("MatchId", "m")]) ∧
      (loggedIn "burn" "m" 1).matchId = "m") ∧
    ((Delete memEnv (Create memEnv memEmpty ⟨"burn", "", some (.magiSession ⟨1⟩)⟩).store
        ⟨"", "m", some (.magiSession ⟨1⟩)⟩).outcome.status = some 200 ∧
      (Delete memEnv (Create memEnv memEmpty ⟨"burn", "", some (.magiSession ⟨1⟩)⟩).store
        ⟨"", "m", some (.magiSession ⟨1⟩)⟩).outcome.body = some (.text "delete success!") ∧
      (GetSingle memEnv
        (Delete memEnv (Create memEnv memEmpty ⟨"burn", "", some (.magiSession ⟨1⟩)⟩).store
          ⟨"", "m", some (.magiSession ⟨1⟩)⟩).store
        (loggedIn "burn" "m" 1)).outcome.status = some 404) :=
  ⟨⟨memEnv_fetchAfterInsert, memEnv_deleteRemoves, rfl, rfl⟩,
    create_delete_then_get_404 memEnv memEnv_fetchAfterInsert memEnv_deleteRemoves memEmpty
      "burn" "" "" "m" ⟨1⟩ (loggedIn "burn" "m" 1) rfl rfl⟩

/-! ## GetAll -/

/-- C8: over a store whose list-by-owner returns only records of the queried
owner, for every session identity and every store state: `GetAll` invokes
exactly one store operation, list-by-owner with the session's `UserId`;
it serves the store's result unchanged with status 200; it responds 500 when
the query fails; and every record in a 200 response has `UserId` equal to the
session's. -/
theorem getAll_scoped_to_session (env : Env σ) (hscope : ListsByOwner env) (st : σ)
    (req : Request) (session : MagiSession)
    (hsession : req.session = some (.magiSession session)) :
    (GetAll env st req).calls = [.GetAll session.UserId] ∧
    (GetAll env st req).store = st ∧
    (∀ found, env.GetAll st session.UserId = .ok found →
      (GetAll env st req).outcome = .served (.records found)) ∧
    (∀ e, env.GetAll st session.UserId = .error e →
      (GetAll env st req).outcome.status = some 500) ∧
    ((GetAll env st req).outcome.status = some 200 →
      ∃ found, env.GetAll st session.UserId = .ok found ∧
        (GetAll env st req).outcome.body = some (.records found) ∧
        ∀ r ∈ found, r.UserId = session.UserId) := by
  unfold GetAll
  simp only [hsession]
  cases hq : env.GetAll st session.UserId with
  | error e => simp
  | ok found =>
    have := hscope st session.UserId found hq
    simp [Outcome.body]
    exact this

/-- Witness for C8: user 1 lists a store that also holds a record of
user 2, and lists a store that is down. -/
theorem getAll_scoped_to_session_witness :
    (ListsByOwner memEnv ∧ (loggedIn "" "" 1).session = some (.magiSession ⟨1⟩)) ∧
    (GetAll memEnv memTwo (loggedIn "" "" 1)).calls = [.GetAll 1] ∧
    (GetAll memEnv memTwo (loggedIn "" "" 1)).outcome = .served (.records [burnMatch]) ∧
    (GetAll memEnv memDown (loggedIn "" "" 1)).outcome.status = some 500 :=
  ⟨⟨memEnv_listsByOwner, rfl⟩,
    (getAll_scoped_to_session memEnv memEnv_listsByOwner memTwo (loggedIn "" "" 1) ⟨1⟩ rfl).1,
    (getAll_scoped_to_session memEnv memEnv_listsByOwner memTwo (loggedIn "" "" 1) ⟨1⟩ rfl).2.2.1
      [burnMatch] rfl,
    (getAll_scoped_to_session memEnv memEnv_listsByOwner memDown (loggedIn "" "" 1) ⟨1⟩ rfl).2.2.2.1
      "no available connection" rfl⟩

/-! ## Requests without a session -/

/-- With no session, `Create` takes its `nil` branch and aborts with 500
without invoking the store, for a body that parses and validates; `GetSingle`
has no such branch: after a successful fetch the unchecked type assertion
panics, so the handler neither aborts nor serves. -/
theorem nil_session_paths (env : Env σ) (st : σ) (req : Request)
    (hnone : req.session = none) :
    (∀ r, env.Unmarshal req.RequestBody = .ok r → r.Validate = none →
      (Create env st req).outcome = .aborted "500" ∧
      (Create env st req).outcome.status = some 500 ∧
      (Create env st req).calls = [] ∧
      (Create env st req).store = st) ∧
    (∀ r, env.GetOne st req.matchId = .ok r →
      (GetSingle env st req).outcome = .panicked ∧
      (GetSingle env st req).calls = [.GetOne req.matchId] ∧
      (GetSingle env st req).store = st) := by
  constructor
  · intro r hparse hvalid
    simp [Create, hparse, hvalid, hnone]
  · intro r hfound
    simp [GetSingle, hfound, hnone]

/-- C9: the two handlers on a request without a session, over a store that
holds the record `m`. `Create`, for a body that parses and validates, aborts
with 500 as the claim says. `GetSingle`, for the stored identifier, does not
reach any `Abort`: it fetches the record and then panics on the type
assertion of the `nil` session, where `Create` has its `nil` check. -/
theorem getSingle_nil_session_panics :
    (⟨"burn", "m", none⟩ : Request).session = none ∧
    memEnv.Unmarshal (⟨"burn", "m", none⟩ : Request).RequestBody = .ok burnMatch ∧
    burnMatch.Validate = none ∧
    memEnv.GetOne memTwo (⟨"burn", "m", none⟩ : Request).matchId = .ok burnMatch ∧
    (Create memEnv memTwo ⟨"burn", "m", none⟩).outcome = .aborted "500" ∧
    (Create memEnv memTwo ⟨"burn", "m", none⟩).outcome.status = some 500 ∧
    (GetSingle memEnv memTwo ⟨"burn", "m", none⟩).outcome = .panicked ∧
    (GetSingle memEnv memTwo ⟨"burn", "m", none⟩).outcome ≠ .aborted "500" ∧
    (GetSingle memEnv memTwo ⟨"burn", "m", none⟩).calls = [.GetOne "m"] :=
  ⟨rfl, rfl, by decide, rfl, rfl, by decide, rfl, by decide, rfl⟩

/-! ## Store mutations -/

/-- C10: every handler invokes at most one mutating store operation per
request. `Create` invokes the store insert exactly once on its 200 path,
`Delete` invokes delete-by-id exactly once on its 200 path; on a path ending
in 400 or 404 neither invokes a mutation and the store state is unchanged;
`GetSingle` and `GetAll` never invoke a mutation and never change the store
state. -/
theorem one_mutation_per_request (env : Env σ) (st : σ) (req : Request) :
    ((mutations (Create env st req).calls).length ≤ 1 ∧
      (mutations (Delete env st req).calls).length ≤ 1 ∧
      (mutations (GetSingle env st req).calls).length ≤ 1 ∧
      (mutations (GetAll env st req).calls).length ≤ 1) ∧
    ((Create env st req).outcome.status = some 200 →
      ∃ r, env.Unmarshal req.RequestBody = .ok r ∧
        (Create env st req).calls = [.InsertMatch r] ∧
        mutations (Create env st req).calls = [.InsertMatch r]) ∧
    ((Delete env st req).outcome.status = some 200 →
      (Delete env st req).calls = [.GetOne req.matchId, .Delete req.matchId] ∧
      mutations (Delete env st req).calls = [.Delete req.matchId]) ∧
    ((Create env st req).outcome.status = some 400 ∨
        (Create env st req).outcome.status = some 404 →
      mutations (Create env st req).calls = [] ∧ (Create env st req).store = st) ∧
    ((Delete env st req).outcome.status = some 400 ∨
        (Delete env st req).outcome.status = some 404 →
      mutations (Delete env st req).calls = [] ∧ (Delete env st req).store = st) ∧
    (mutations (GetSingle env st req).calls = [] ∧ (GetSingle env st req).store = st) ∧
    (mutations (GetAll env st req).calls = [] ∧ (GetAll env st req).store = st) := by
  refine ⟨⟨?_, ?_, ?_, ?_⟩, ?_, ?_, ?_, ?_, ⟨?_, ?_⟩, ⟨?_, ?_⟩⟩
  all_goals
    simp only [Create, Delete, GetSingle, GetAll, mutations]
    repeat' split
  all_goals simp_all [StoreCall.isMutation]

end Magitrak
